import Mathlib

/-!
Verification of the HMT stock tracker bot (repository HARR3Y/hmt_tracker_bot).

The repository contains two variants of the bot:
  * `src/stock_bot.py` — file-backed (data.json), run once per scheduling
    trigger; modelled in namespace `StockBot`.
  * `src/app.py` — MongoDB-backed long-running loop; modelled in namespace
    `AppPy`.

Modelling conventions (shallow embedding):
  * ISO timestamp strings are modelled as integer epoch seconds
    (`Option Int`, `none` = absent/null).  The `datetime.fromisoformat`
    parse-failure fallback path is unreachable for values the program itself
    writes, so timestamps are kept as integers.
  * An HTTP fetch outcome is a `FetchResult`: either a status code together
    with the page's extracted visible text, or `failure` (any raised
    network/timeout/parse exception).
  * Replies and notifications sent through Telegram are collected in lists
    instead of performed as side effects; a notification is recorded as the
    watched URL (the best-effort page-title decoration of the message text is
    not modelled, no claim depends on it).
-/

/-! ## Python string helpers -/

/-- Whether the character list `pre` occurs at the start of `l`. -/
def startsWithChars : List Char → List Char → Bool
  | [], _ => true
  | _ :: _, [] => false
  | a :: as, b :: bs => a == b && startsWithChars as bs

/-- Whether the character list `needle` occurs contiguously inside `hay`
(Python's `needle in hay` on strings). -/
def occursInChars (needle : List Char) : List Char → Bool
  | [] => startsWithChars needle []
  | hay@(_ :: rest) => startsWithChars needle hay || occursInChars needle rest

/-- Python's `needle in hay` substring test on strings. -/
def strOccurs (needle hay : String) : Bool :=
  occursInChars needle.data hay.data

/-- Split on whitespace runs, accumulating the current token (reversed). -/
def pySplitAux : List Char → List Char → List String
  | acc, [] => if acc.isEmpty then [] else [String.mk acc.reverse]
  | acc, c :: rest =>
      if c.isWhitespace then
        if acc.isEmpty then pySplitAux [] rest
        else String.mk acc.reverse :: pySplitAux [] rest
      else pySplitAux (c :: acc) rest

/-- Python's `str.split()` with no arguments: split on whitespace runs,
discarding empty pieces. -/
def pySplit (s : String) : List String :=
  pySplitAux [] s.data

/-- Python's `str.strip()`: remove leading and trailing whitespace. -/
def pyStrip (s : String) : String :=
  String.mk (((s.data.dropWhile Char.isWhitespace).reverse.dropWhile
    Char.isWhitespace).reverse)

/-- Python's `str.lower()` (ASCII case mapping suffices for the strings the
program compares). -/
def pyLower (s : String) : String :=
  String.mk (s.data.map Char.toLower)

/-- First whitespace-delimited token of a character list, together with what
follows it (used for `str.split(maxsplit=n)`). -/
def splitFirstTok (s : List Char) : Option (List Char × List Char) :=
  let s := s.dropWhile Char.isWhitespace
  match s with
  | [] => none
  | l => some (l.takeWhile (fun c => !c.isWhitespace),
               l.dropWhile (fun c => !c.isWhitespace))

/-- Python's `str.split(maxsplit=n)` on a character list: at most `n` splits,
the remainder (leading whitespace stripped) is kept whole as a final piece. -/
def pySplitMaxAux : Nat → List Char → List String
  | 0, s =>
      let r := s.dropWhile Char.isWhitespace
      if r.isEmpty then [] else [String.mk r]
  | n + 1, s =>
      match splitFirstTok s with
      | none => []
      | some (tok, rest) => String.mk tok :: pySplitMaxAux n rest

/-- Python's `str.split(maxsplit=2)`. -/
def pySplitMax2 (s : String) : List String :=
  pySplitMaxAux 2 s.data

/-- Digits of a numeral, as a natural number; `none` when the list is empty
or contains a non-digit. -/
def parseDigits : List Char → Option Nat
  | [] => none
  | l =>
      if l.all Char.isDigit then
        some (l.foldl (fun acc c => acc * 10 + (c.toNat - '0'.toNat)) 0)
      else none

/-- Python's `int(s)` on an already-stripped token: optional sign followed by
decimal digits (`none` models a raised `ValueError`; digit-grouping
underscores are not modelled). -/
def pyInt (s : String) : Option Int :=
  match s.data with
  | '+' :: rest => (parseDigits rest).map Int.ofNat
  | '-' :: rest => (parseDigits rest).map (fun n => -(n : Int))
  | l => (parseDigits l).map Int.ofNat

/-- Python's index normalisation for `list.pop(i)` / `list[i]`: negative
indices count from the end; `none` models a raised `IndexError`. -/
def pyIndex (len : Nat) (i : Int) : Option Nat :=
  if 0 ≤ i then
    if i < (len : Int) then some i.toNat else none
  else
    if -i ≤ (len : Int) then some (len - (-i).toNat) else none

/-- Python's `list.pop(i)`: the removed element and the remaining list, or
`none` for a raised `IndexError`. -/
def pyPop (l : List α) (i : Int) : Option (α × List α) :=
  match pyIndex l.length i with
  | none => none
  | some n =>
      match l.get? n with
      | none => none
      | some x => some (x, l.eraseIdx n)

/-! ## `urllib.parse.urlsplit` (scheme and netloc only) and `is_valid_url` -/

/-- Characters allowed in a URL scheme after the first (letters, digits,
`+`, `-`, `.`). -/
def schemeChar (c : Char) : Bool :=
  c.isAlpha || c.isDigit || c == '+' || c == '-' || c == '.'

/-- Split a character list at the first `:`,  returning the part before and
after it. -/
def splitAtColon : List Char → Option (List Char × List Char)
  | [] => none
  | ':' :: rest => some ([], rest)
  | c :: rest => (splitAtColon rest).map (fun p => (c :: p.1, p.2))

/-- Model of `urllib.parse.urlsplit(u)` restricted to the `(scheme, netloc)` pair:
the scheme is the lowercased text before the first `:` when it is non-empty,
starts with a letter and uses only scheme characters; the netloc is the text
between a leading `//` of the remainder and the next `/`, `?` or `#`. -/
def urlSchemeNetloc (u : String) : String × String :=
  let (scheme, rest) :=
    match splitAtColon u.data with
    | some (pre, post) =>
        if pre ≠ [] ∧ (pre.headD 'a').isAlpha ∧ pre.all schemeChar then
          (String.mk (pre.map Char.toLower), post)
        else ("", u.data)
    | none => ("", u.data)
  let netloc :=
    match rest with
    | '/' :: '/' :: r =>
        String.mk (r.takeWhile (fun c => c ≠ '/' && c ≠ '?' && c ≠ '#'))
    | _ => ""
  (scheme, netloc)

/-- Embeds `is_valid_url` from src/stock_bot.py lines 208-213: the argument parses with an
`http`/`https` scheme and a non-empty netloc. -/
def is_valid_url (u : String) : Bool :=
  let p := urlSchemeNetloc u
  (p.1 == "http" || p.1 == "https") && p.2 ≠ ""

/-! ## Availability classifier (`evaluate_stock`) -/

/-- Outcome of the HTTP fetch inside `evaluate_stock`: a status code with the
page's extracted visible text, or a raised network/timeout/parse failure. -/
inductive FetchResult where
  | success (status : Nat) (body : String)
  | failure
deriving Repr, DecidableEq

/-- Out-of-stock marker phrases (both variants use the same list). -/
def out_markers : List String :=
  ["out of stock", "sold out", "currently unavailable", "unavailable"]

/-- In-stock marker phrases. -/
def in_markers : List String :=
  ["add to cart", "add to bag", "add to basket", "buy now", "in stock"]

/-- Marker matching of `evaluate_stock` on the extracted visible text:
lowercase, then out-markers take precedence over in-markers. -/
def classifyText (text : String) : String :=
  let t := pyLower text
  if out_markers.any (fun m => strOccurs m t) then "out"
  else if in_markers.any (fun m => strOccurs m t) then "in"
  else "unknown"

/-- Embeds `evaluate_stock` from src/stock_bot.py lines 217-238 (src/app.py lines
43-60 is identical but for the timeout constant): a raised exception or a
non-200 status yields "unknown", otherwise the marker test runs on the
lowercased visible text. -/
def evaluate_stock : FetchResult → String
  | .failure => "unknown"
  | .success status body => if status ≠ 200 then "unknown" else classifyText body

/-! ## Sanity checks for the helpers -/

example : pySplit "  /add   https://x  " = ["/add", "https://x"] := by decide
example : pySplitMax2 "/update 2  https://a  b" = ["/update", "2", "https://a  b"] := by decide
example : pyInt "-3" = some (-3) := by decide
example : pyInt "x3" = none := by decide
example : pyPop ["a", "b"] (-1) = some ("b", ["a"]) := by decide
example : pyPop ["a", "b"] 2 = none := by decide
example : is_valid_url "https://example.com/p" = true := by decide
example : is_valid_url "not-a-url" = false := by decide
example : is_valid_url "http://" = false := by decide
example : classifyText "Add to Cart" = "in" := by decide
example : classifyText "Sold Out  Add to Cart" = "out" := by decide
example : evaluate_stock (.success 404 "add to cart") = "unknown" := by decide

/-! ## Data model -/

/-- A tracked watch: `url`, `last_status` (one of "unknown"/"in"/"out") and
`last_checked` (epoch seconds, `none` = never). -/
structure Watch where
  url : String
  last_status : String
  last_checked : Option Int
deriving Repr, DecidableEq

/-- A user record: ordered watch list, check interval in minutes, the notify
flag, and the time of the last scheduler check. -/
structure User where
  watches : List Watch
  interval : Int
  notify : Bool
  last_checked : Option Int
deriving Repr, DecidableEq

/-- The user table, keyed by the stringified chat id (a Python dict in
stock_bot.py, the Mongo `users` collection in app.py). -/
abbrev Users := List (String × User)

/-- Key lookup in the user table. -/
def getUser (key : String) : Users → Option User
  | [] => none
  | (k, v) :: rest => if k == key then some v else getUser key rest

/-- Key update/insert in the user table. -/
def setUser (key : String) (u : User) : Users → Users
  | [] => [(key, u)]
  | (k, v) :: rest =>
      if k == key then (k, u) :: rest else (k, v) :: setUser key u rest

/-- The record created for an unseen chat identity (both variants):
no watches, interval `DEFAULT_INTERVAL_MIN = 5`, notifications on,
never checked. -/
def defaultUser : User :=
  { watches := [], interval := 5, notify := true, last_checked := none }

/-- The user record `handle_command` works on: the stored one, or
`defaultUser` for an unseen chat identity. -/
def userOrDefault (key : String) (users : Users) : User :=
  (getUser key users).getD defaultUser

/-- The "ensure user entry exists on first interaction" step of both
variants: insert `defaultUser` when the key is unseen. -/
def ensureUser (key : String) (users : Users) : Users :=
  match getUser key users with
  | some _ => users
  | none => setUser key defaultUser users

/-! ## stock_bot.py: command handling -/

namespace StockBot

/-- Result of `handle_command`: the updated user table, the replies sent to
the chat, and the returned `changed` flag. -/
structure HCResult where
  users : Users
  replies : List String
  changed : Bool
deriving Repr, DecidableEq

/-- The /start and /help reply text. -/
def helpText : String :=
  "👋 Welcome to HMT Stock Bot!\n\nCommands:\n/add <product_link> - Add a product to track\n/list - Show tracked products\n/remove <index> - Remove a product by its index\n/update <index> <new_link> - Replace a product link\n/interval <minutes> - Set check interval (minutes)\n/notify on|off - Turn notifications on or off\n/stats - Show stats for your account\n/help - Show this help"

/-- The /list lines, 1-based enumeration of the watches. -/
def listLines (i : Nat) : List Watch → List String
  | [] => []
  | w :: rest =>
      (toString i ++ ". " ++ w.url ++ " — status: " ++ w.last_status
        ++ " — last check: "
        ++ (match w.last_checked with
            | some t => toString t
            | none => "never"))
      :: listLines (i + 1) rest

/-- Render `last_checked` for /stats (`or "never"`). -/
def renderLastChecked : Option Int → String
  | some t => toString t
  | none => "never"

/-- The `/add` branch (src/stock_bot.py lines 103-118): argument count check,
URL validation, then append one fresh watch with status "unknown". -/
def addCmd (key : String) (parts : List String) (user : User)
    (users : Users) : HCResult :=
  match parts with
  | _ :: link :: _ =>
      if !is_valid_url (pyStrip link) then
        ⟨users, ["❌ That doesn\x27t look like a valid URL."], false⟩
      else
        ⟨setUser key
            { user with watches :=
                user.watches ++ [⟨pyStrip link, "unknown", none⟩] } users,
         ["✅ Added and will monitor: " ++ pyStrip link], true⟩
  | _ => ⟨users, ["Usage: /add <product_link>"], false⟩

/-- The `/list` branch (src/stock_bot.py lines 120-131). -/
def listCmd (user : User) (users : Users) : HCResult :=
  match user.watches with
  | [] => ⟨users, ["📭 You are not tracking any products."], false⟩
  | ws =>
      ⟨users, [String.intercalate "\n" ("📋 You are tracking:" :: listLines 1 ws)],
       false⟩

/-- The `/remove` branch (src/stock_bot.py lines 133-144): `int()` then
`list.pop` inside a try/except that answers "Invalid index" on any raise. -/
def removeCmd (key : String) (parts : List String) (user : User)
    (users : Users) : HCResult :=
  match parts with
  | _ :: idxStr :: _ =>
      match pyInt idxStr with
      | none => ⟨users, ["❌ Invalid index."], false⟩
      | some n =>
          match pyPop user.watches (n - 1) with
          | none => ⟨users, ["❌ Invalid index."], false⟩
          | some (removed, rest) =>
              ⟨setUser key { user with watches := rest } users,
               ["🗑️ Removed: " ++ removed.url], true⟩
  | _ => ⟨users, ["Usage: /remove <index>"], false⟩

/-- The `/update` branch (src/stock_bot.py lines 146-163): `int()`, then URL
validation (before any indexing), then indexed overwrite with status reset;
raises are answered with "Invalid index or error". -/
def updateCmd (key : String) (parts : List String) (user : User)
    (users : Users) : HCResult :=
  match parts with
  | _ :: idxStr :: link :: _ =>
      match pyInt idxStr with
      | none => ⟨users, ["❌ Invalid index or error."], false⟩
      | some n =>
          if !is_valid_url (pyStrip link) then
            ⟨users, ["❌ That doesn\x27t look like a valid URL."], false⟩
          else
            match pyIndex user.watches.length (n - 1) with
            | none => ⟨users, ["❌ Invalid index or error."], false⟩
            | some i =>
                ⟨setUser key
                    { user with watches :=
                        user.watches.set i ⟨pyStrip link, "unknown", none⟩ } users,
                 ["🔄 Updated watch #" ++ toString n ++ " -> " ++ pyStrip link], true⟩
  | _ => ⟨users, ["Usage: /update <index> <new_link>"], false⟩

/-- The `/interval` branch (src/stock_bot.py lines 165-178): values below 1
raise `ValueError` and are rejected. -/
def intervalCmd (key : String) (parts : List String) (user : User)
    (users : Users) : HCResult :=
  match parts with
  | _ :: arg :: _ =>
      match pyInt arg with
      | none => ⟨users, ["❌ Invalid number."], false⟩
      | some m =>
          if m < 1 then ⟨users, ["❌ Invalid number."], false⟩
          else
            ⟨setUser key { user with interval := m } users,
             ["⏱ Check interval set to " ++ toString m ++ " minute(s)."], true⟩
  | _ => ⟨users, ["Usage: /interval <minutes>   (min 1)"], false⟩

/-- The `/notify` branch (src/stock_bot.py lines 180-195). -/
def notifyCmd (key : String) (parts : List String) (user : User)
    (users : Users) : HCResult :=
  match parts with
  | _ :: arg :: _ =>
      if pyLower arg == "on" || pyLower arg == "true" || pyLower arg == "1" then
        ⟨setUser key { user with notify := true } users,
         ["🔔 Notifications: ON"], true⟩
      else if pyLower arg == "off" || pyLower arg == "false" || pyLower arg == "0" then
        ⟨setUser key { user with notify := false } users,
         ["🔕 Notifications: OFF"], true⟩
      else ⟨users, ["Usage: /notify on|off"], false⟩
  | _ => ⟨users, ["Usage: /notify on|off"], false⟩

/-- The `/stats` branch (src/stock_bot.py lines 197-202). -/
def statsCmd (user : User) (users : Users) : HCResult :=
  ⟨users,
   ["📊 Tracked: " ++ toString user.watches.length ++ " watches\nInterval: "
      ++ toString user.interval ++ " min\nLast checked: "
      ++ renderLastChecked user.last_checked], false⟩

/-- Command dispatch of `handle_command` (src/stock_bot.py lines 89-205),
after the user record has been ensured: the if-chain over the lowercased
first token. -/
def dispatch (key : String) (cmd : String) (parts : List String)
    (user : User) (users : Users) : HCResult :=
  if cmd == "/start" || cmd == "/help" then ⟨users, [helpText], false⟩
  else if cmd == "/add" then addCmd key parts user users
  else if cmd == "/list" then listCmd user users
  else if cmd == "/remove" then removeCmd key parts user users
  else if cmd == "/update" then updateCmd key parts user users
  else if cmd == "/interval" then intervalCmd key parts user users
  else if cmd == "/notify" then notifyCmd key parts user users
  else if cmd == "/stats" then statsCmd user users
  else ⟨users, ["❓ Unknown command. Send /help for instructions."], false⟩

/-- Embeds `handle_command(chat_id, text, data)` from src/stock_bot.py lines 67-205:
strip and split the text; a whitespace-only text is answered with an error
and `True` is returned before any user record is created; otherwise the user
record is ensured (created with `defaultUser` on first contact) and the
command dispatched. -/
def handle_command (chat_id : Int) (text : String) (users : Users) : HCResult :=
  match pySplit (pyStrip text) with
  | [] => ⟨users, ["❌ Empty message."], true⟩
  | cmd0 :: rest =>
      dispatch (toString chat_id) (pyLower cmd0) (cmd0 :: rest)
        (userOrDefault (toString chat_id) users)
        (ensureUser (toString chat_id) users)

/-! ## stock_bot.py: scheduler sweep (main, part 2) -/

/-- The `should_check` gating of src/stock_bot.py lines 306-317 (src/app.py lines
82-94 is identical): check when `last_checked` is absent, or when the elapsed
time reaches `interval * 60` seconds. -/
def should_check (now : Int) (u : User) : Bool :=
  match u.last_checked with
  | none => true
  | some t => decide (now - t ≥ u.interval * 60)

/-- Result of one per-watch step: the (possibly updated) watch, the
notifications sent (recorded as the watched URL), and the classifier calls
made (the URLs passed to `evaluate_stock`). -/
structure WatchStep where
  watch : Watch
  notes : List String
  calls : List String
deriving Repr, DecidableEq

/-- One iteration of the per-watch loop (src/stock_bot.py lines 323-351,
src/app.py lines 100-113): a falsy url is skipped wholesale; otherwise the
page is classified, a notification fires exactly when the status transitions
into "in" with notifications on, and `last_status`/`last_checked` are updated
unconditionally. -/
def checkWatch (now : Int) (notifyFlag : Bool) (fetch : String → FetchResult)
    (w : Watch) : WatchStep :=
  if w.url == "" then ⟨w, [], []⟩
  else
    let new_status := evaluate_stock (fetch w.url)
    let old_status := w.last_status
    let notes :=
      if new_status == "in" && old_status != "in" && notifyFlag then [w.url]
      else []
    ⟨⟨w.url, new_status, some now⟩, notes, [w.url]⟩

/-- Result of one per-user scheduler step. -/
structure UserStep where
  user : User
  notes : List String
  calls : List String
  checked : Bool
deriving Repr, DecidableEq

/-- One iteration of the per-user loop (src/stock_bot.py lines 300-355):
a user who is not due is skipped entirely; otherwise every watch is stepped
and `last_checked` is set to `now` unconditionally. -/
def checkUser (now : Int) (fetch : String → FetchResult) (u : User) : UserStep :=
  if !should_check now u then ⟨u, [], [], false⟩
  else
    let steps := u.watches.map (checkWatch now u.notify fetch)
    ⟨{ u with watches := steps.map WatchStep.watch, last_checked := some now },
     (steps.map WatchStep.notes).flatten, (steps.map WatchStep.calls).flatten, true⟩

/-- The sweep over all users, in table order; notifications are tagged with
the owning user's key. -/
def sweepUsers (now : Int) (fetch : String → FetchResult) :
    Users → Users × List (String × String)
  | [] => ([], [])
  | (k, u) :: rest =>
      let s := checkUser now fetch u
      let r := sweepUsers now fetch rest
      ((k, s.user) :: r.1, s.notes.map (fun n => (k, n)) ++ r.2)

/-! ## stock_bot.py: one full run of `main` -/

/-- The persistent snapshot (`data.json`): the update cursor and the users. -/
structure Data where
  last_update_id : Int
  users : Users
deriving Repr, DecidableEq

/-- Events observable at the persistence/application boundary of a run:
a message being applied (handed to `handle_command`), and the cursor being
persisted with a given value. -/
inductive CursorEvent where
  | applyMsg (uid : Int) (chat : Int) (text : String)
  | persist (cursor : Int)
deriving Repr, DecidableEq

/-- An element of the pulled `getUpdates` batch: the update id (`none` models
a missing `update_id` key) and, when the update carries a text message, the
chat id with the text (`none` models a missing/empty message; a falsy chat id
or text is additionally guarded below, as in the source). -/
structure Update where
  update_id : Option Int
  message : Option (Int × String)
deriving Repr, DecidableEq

/-- Accumulator of the update-processing loop of `main`
(src/stock_bot.py lines 274-292). -/
structure MainAcc where
  users : Users
  maxId : Int
  dataChanged : Bool
  events : List CursorEvent
deriving Repr, DecidableEq

/-- One iteration of the update-processing loop: skip updates without an id,
fold the id into `max_update_id`, and apply the message (when present and
truthy) through `handle_command`. -/
def mainStep (acc : MainAcc) (u : Update) : MainAcc :=
  match u.update_id with
  | none => acc
  | some uid =>
      let acc := { acc with maxId := if uid > acc.maxId then uid else acc.maxId }
      match u.message with
      | none => acc
      | some (chat, text) =>
          if chat == 0 || text == "" then acc
          else
            let r := handle_command chat text acc.users
            { acc with users := r.users,
                       dataChanged := acc.dataChanged || r.changed,
                       events := acc.events ++ [CursorEvent.applyMsg uid chat text] }

/-- Result of one full run of `main`. -/
structure RunResult where
  data : Data
  notes : List (String × String)
  events : List CursorEvent
deriving Repr, DecidableEq

/-- One full run of `main` (src/stock_bot.py lines 264-360): process the
pulled batch, move the cursor to `max_update_id` when it advanced, run the
scheduler sweep, then `save_data` — the single persistence of the snapshot,
recorded as the final `persist` event. -/
def main_run (updates : List Update) (now : Int) (fetch : String → FetchResult)
    (data : Data) : RunResult :=
  let old := data.last_update_id
  let acc := updates.foldl mainStep ⟨data.users, old, false, []⟩
  let cursor := if acc.maxId ≠ 0 ∧ acc.maxId > old then acc.maxId else old
  let swept := sweepUsers now fetch acc.users
  ⟨⟨cursor, swept.1⟩, swept.2, acc.events ++ [CursorEvent.persist cursor]⟩

end StockBot

/-! ## app.py: command handling and polling loop -/

namespace AppPy

/-- Result of app.py's `handle_command`: the updated user table (each
mutation is written to Mongo immediately in the source), the replies sent,
and whether an exception escaped (`parts[0]` on a whitespace-only text). -/
structure HCOut where
  users : Users
  replies : List String
  raised : Bool
deriving Repr, DecidableEq

/-- The /start and /help reply of app.py. -/
def helpText : String :=
  "👋 Welcome to HMT Stock Bot @hmt_tracker_bot!\nCommands:\n/add <link>\n/list\n/remove <index>\n/update <index> <new_link>\n/interval <minutes>\n/notify on|off\n/stats"

/-- The /list lines of app.py, 1-based. -/
def listLines (i : Nat) : List Watch → List String
  | [] => []
  | w :: rest =>
      (toString i ++ ". " ++ w.url ++ " — status: " ++ w.last_status)
      :: listLines (i + 1) rest

/-- The `/add` branch (src/app.py lines 145-153): *no* URL validation — any
argument is appended as a watch. -/
def addCmd (key : String) (parts : List String) (user : User)
    (users : Users) : HCOut :=
  match parts with
  | _ :: link :: _ =>
      ⟨setUser key
          { user with watches :=
              user.watches ++ [⟨pyStrip link, "unknown", none⟩] }
          users,
       ["✅ Added: " ++ pyStrip link], false⟩
  | _ => ⟨users, ["Usage: /add <product_link>"], false⟩

/-- The `/list` branch (src/app.py lines 155-162). -/
def listCmd (user : User) (users : Users) : HCOut :=
  match user.watches with
  | [] => ⟨users, ["📭 No watches tracked."], false⟩
  | ws =>
      ⟨users,
       ["📋 Your watches:\n" ++ String.intercalate "\n" (listLines 1 ws)],
       false⟩

/-- The `/remove` branch (src/app.py lines 164-175). -/
def removeCmd (key : String) (parts : List String) (user : User)
    (users : Users) : HCOut :=
  match parts with
  | _ :: idxStr :: _ =>
      match pyInt idxStr with
      | none => ⟨users, ["❌ Invalid index."], false⟩
      | some n =>
          match pyPop user.watches (n - 1) with
          | none => ⟨users, ["❌ Invalid index."], false⟩
          | some (removed, rest) =>
              ⟨setUser key { user with watches := rest } users,
               ["🗑️ Removed: " ++ removed.url], false⟩
  | _ => ⟨users, ["Usage: /remove <index>"], false⟩

/-- The `/update` branch (src/app.py lines 177-191): no URL validation. -/
def updateCmd (key : String) (parts : List String) (user : User)
    (users : Users) : HCOut :=
  match parts with
  | _ :: idxStr :: link :: _ =>
      match pyInt idxStr with
      | none => ⟨users, ["❌ Invalid index or error."], false⟩
      | some n =>
          match pyIndex user.watches.length (n - 1) with
          | none => ⟨users, ["❌ Invalid index or error."], false⟩
          | some i =>
              ⟨setUser key
                  { user with watches :=
                      user.watches.set i ⟨pyStrip link, "unknown", none⟩ } users,
               ["🔄 Updated #" ++ toString n ++ " -> " ++ pyStrip link], false⟩
  | _ => ⟨users, ["Usage: /update <index> <new_link>"], false⟩

/-- The `/interval` branch (src/app.py lines 193-204): clamps with
`max(1, m)` instead of rejecting values below 1. -/
def intervalCmd (key : String) (parts : List String) (user : User)
    (users : Users) : HCOut :=
  match parts with
  | _ :: arg :: _ =>
      match pyInt arg with
      | none => ⟨users, ["❌ Invalid number."], false⟩
      | some m =>
          ⟨setUser key { user with interval := max 1 m } users,
           ["⏱ Interval set to " ++ toString (max 1 m) ++ " minutes."], false⟩
  | _ => ⟨users, ["Usage: /interval <minutes>"], false⟩

/-- The `/notify` branch (src/app.py lines 206-221). -/
def notifyCmd (key : String) (parts : List String) (user : User)
    (users : Users) : HCOut :=
  match parts with
  | _ :: arg :: _ =>
      if pyLower arg == "on" || pyLower arg == "true" || pyLower arg == "1" then
        ⟨setUser key { user with notify := true } users,
         ["🔔 Notifications ON"], false⟩
      else if pyLower arg == "off" || pyLower arg == "false" || pyLower arg == "0" then
        ⟨setUser key { user with notify := false } users,
         ["🔕 Notifications OFF"], false⟩
      else ⟨users, ["Usage: /notify on|off"], false⟩
  | _ => ⟨users, ["Usage: /notify on|off"], false⟩

/-- The `/stats` branch (src/app.py lines 223-226). -/
def statsCmd (user : User) (users : Users) : HCOut :=
  ⟨users,
   ["📊 Tracked: " ++ toString user.watches.length ++ " watches\nInterval: "
      ++ toString user.interval ++ " min\nLast checked: "
      ++ (match user.last_checked with
          | some t => toString t
          | none => "None")], false⟩

/-- Command dispatch of app.py's `handle_command` (src/app.py lines 141-228),
after the user record exists.  Unlike stock_bot.py, `/add` and `/update`
perform no URL validation, and `/interval` clamps with `max(1, m)` instead of
rejecting values below 1. -/
def dispatch (key : String) (cmd : String) (parts : List String)
    (user : User) (users : Users) : HCOut :=
  if cmd == "/start" || cmd == "/help" then ⟨users, [helpText], false⟩
  else if cmd == "/add" then addCmd key parts user users
  else if cmd == "/list" then listCmd user users
  else if cmd == "/remove" then removeCmd key parts user users
  else if cmd == "/update" then updateCmd key parts user users
  else if cmd == "/interval" then intervalCmd key parts user users
  else if cmd == "/notify" then notifyCmd key parts user users
  else if cmd == "/stats" then statsCmd user users
  else ⟨users, ["❓ Unknown command. Send /help"], false⟩

/-- app.py's `handle_command` (src/app.py lines 125-228): the user record is
created (and written to Mongo) *before* the text is parsed, so it exists for
any inbound text; a whitespace-only text then raises `IndexError` at
`parts[0]` (`raised = true`), caught by the caller. -/
def handle_command (chat_id : Int) (text : String) (users : Users) : HCOut :=
  match pySplitMax2 (pyStrip text) with
  | [] => ⟨ensureUser (toString chat_id) users, [], true⟩
  | cmd0 :: rest =>
      dispatch (toString chat_id) (pyLower cmd0) (cmd0 :: rest)
        (userOrDefault (toString chat_id) users)
        (ensureUser (toString chat_id) users)

/-- An element of app.py's pulled batch: `update_id` is accessed directly in
the source (`u["update_id"]`), so it is mandatory here; `message` carries the
chat id and text when the update has a text message. -/
structure Update where
  update_id : Int
  message : Option (Int × String)
deriving Repr, DecidableEq

/-- One iteration of app.py's polling loop (src/app.py lines 267-278): the
cursor is set to the update's id and persisted to Mongo immediately —
*before* that update's message is handed to `handle_command`. -/
def loopStep (acc : Users × Int × List StockBot.CursorEvent) (u : Update) :
    Users × Int × List StockBot.CursorEvent :=
  let offset := u.update_id
  let evs := acc.2.2 ++ [StockBot.CursorEvent.persist offset]
  match u.message with
  | none => (acc.1, offset, evs)
  | some (chat, text) =>
      let r := handle_command chat text acc.1
      (r.users, offset,
       evs ++ [StockBot.CursorEvent.applyMsg u.update_id chat text])

/-- The update-processing part of one iteration of app.py's `while True`
loop (src/app.py lines 264-278), with its persistence/application trace. -/
def pollCycle (updates : List Update) (users : Users) (offset : Int) :
    Users × Int × List StockBot.CursorEvent :=
  updates.foldl loopStep (users, offset, [])

end AppPy

/-! ## Trace predicates for the cursor claim -/

/-- Whether an event is a message application. -/
def isApply : StockBot.CursorEvent → Bool
  | .applyMsg _ _ _ => true
  | .persist _ => false

/-- The cursor is persisted only after all messages of the batch are applied:
no `applyMsg` event occurs after any `persist` event. -/
def persistOnlyAfterApplies : List StockBot.CursorEvent → Bool
  | [] => true
  | e :: rest =>
      (match e with
       | .persist _ => rest.all (fun x => !isApply x)
       | .applyMsg _ _ _ => true) && persistOnlyAfterApplies rest

/-! ## Helper lemmas -/

theorem getUser_setUser (k key : String) (u : User) (us : Users) :
    getUser k (setUser key u us) = if k = key then some u else getUser k us := by
  induction us with
  | nil =>
      by_cases h : k = key
      · simp [getUser, setUser, h]
      · simp [getUser, setUser, h, Ne.symm h]
  | cons hd t ih =>
      obtain ⟨k1, v⟩ := hd
      by_cases hk : k1 = key <;> by_cases hkk : k = k1
      · subst hk; subst hkk; simp [getUser, setUser]
      · subst hk; simp [getUser, setUser, hkk, Ne.symm hkk]
      · subst hkk
        simp [getUser, setUser, hk, Ne.symm hk]
      · by_cases hkey : k = key
        · subst hkey
          simp [getUser, setUser, hk, hkk, Ne.symm hkk, ih]
        · simp [getUser, setUser, hk, hkk, Ne.symm hkk, hkey, ih]

theorem getUser_inv (P : User → Prop) (key : String) (u1 : User) (us : Users)
    (h : ∀ k v, getUser k us = some v → P v) (hu : P u1) :
    ∀ k v, getUser k (setUser key u1 us) = some v → P v := by
  intro k v hv
  rw [getUser_setUser] at hv
  split at hv
  · cases hv; exact hu
  · exact h k v hv

theorem getUser_ensureUser (key : String) (us : Users) :
    getUser key (ensureUser key us) = some (userOrDefault key us) := by
  unfold ensureUser userOrDefault
  cases h : getUser key us with
  | some u => simp [h]
  | none => simp [h, getUser_setUser]

theorem ensureUser_inv (P : User → Prop) (key : String) (us : Users)
    (h : ∀ k v, getUser k us = some v → P v) (hd : P defaultUser) :
    ∀ k v, getUser k (ensureUser key us) = some v → P v := by
  unfold ensureUser
  cases hg : getUser key us with
  | some u => simpa [hg] using h
  | none => simpa [hg] using getUser_inv P key defaultUser us h hd

theorem userOrDefault_inv (P : User → Prop) (key : String) (us : Users)
    (h : ∀ k v, getUser k us = some v → P v) (hd : P defaultUser) :
    P (userOrDefault key us) := by
  unfold userOrDefault
  cases hg : getUser key us with
  | some u => simpa using h key u hg
  | none => simpa using hd

theorem ite_gt_eq_max (m uid : Int) : (if uid > m then uid else m) = max m uid := by
  rcases le_or_lt uid m with hle | hlt
  · rw [if_neg (not_lt.mpr hle), max_eq_left hle]
  · rw [if_pos hlt, max_eq_right hlt.le]

theorem le_foldl_max (l : List Int) (a : Int) : a ≤ l.foldl max a := by
  induction l generalizing a with
  | nil => simp
  | cons x t ih =>
      calc a ≤ max a x := le_max_left a x
        _ ≤ t.foldl max (max a x) := ih (max a x)
        _ = (x :: t).foldl max a := by rw [List.foldl_cons]

/-- Shape of the user table after one command branch: unchanged, or a
single-key overwrite whose interval is the old one or at least 1. -/
def UsersShape (key : String) (user : User) (users newUsers : Users) : Prop :=
  newUsers = users ∨
    ∃ u1, newUsers = setUser key u1 users ∧
      (u1.interval = user.interval ∨ 1 ≤ u1.interval)

theorem sb_addCmd_shape (key : String) (parts : List String) (user : User)
    (users : Users) :
    UsersShape key user users (StockBot.addCmd key parts user users).users := by
  unfold UsersShape StockBot.addCmd
  repeat' split
  all_goals first
    | (left; rfl)
    | (right; exact ⟨_, rfl, Or.inl rfl⟩)

theorem sb_listCmd_users (user : User) (users : Users) :
    (StockBot.listCmd user users).users = users := by
  unfold StockBot.listCmd
  repeat' split
  all_goals rfl

theorem sb_removeCmd_shape (key : String) (parts : List String) (user : User)
    (users : Users) :
    UsersShape key user users (StockBot.removeCmd key parts user users).users := by
  unfold UsersShape StockBot.removeCmd
  repeat' split
  all_goals first
    | (left; rfl)
    | (right; exact ⟨_, rfl, Or.inl rfl⟩)

theorem sb_updateCmd_shape (key : String) (parts : List String) (user : User)
    (users : Users) :
    UsersShape key user users (StockBot.updateCmd key parts user users).users := by
  unfold UsersShape StockBot.updateCmd
  repeat' split
  all_goals first
    | (left; rfl)
    | (right; exact ⟨_, rfl, Or.inl rfl⟩)

theorem sb_intervalCmd_shape (key : String) (parts : List String) (user : User)
    (users : Users) :
    UsersShape key user users (StockBot.intervalCmd key parts user users).users := by
  unfold UsersShape StockBot.intervalCmd
  repeat' split
  all_goals first
    | (left; rfl)
    | (right; exact ⟨_, rfl, Or.inl rfl⟩)
    | (right; refine ⟨_, rfl, Or.inr ?_⟩; dsimp only; omega)

theorem sb_notifyCmd_shape (key : String) (parts : List String) (user : User)
    (users : Users) :
    UsersShape key user users (StockBot.notifyCmd key parts user users).users := by
  unfold UsersShape StockBot.notifyCmd
  repeat' split
  all_goals first
    | (left; rfl)
    | (right; exact ⟨_, rfl, Or.inl rfl⟩)

theorem sb_dispatch_shape (key cmd : String) (parts : List String)
    (user : User) (users : Users) :
    UsersShape key user users (StockBot.dispatch key cmd parts user users).users := by
  unfold StockBot.dispatch
  repeat' split
  all_goals first
    | (left; rfl)
    | exact sb_addCmd_shape key parts user users
    | (rw [sb_listCmd_users]; left; rfl)
    | exact sb_removeCmd_shape key parts user users
    | exact sb_updateCmd_shape key parts user users
    | exact sb_intervalCmd_shape key parts user users
    | exact sb_notifyCmd_shape key parts user users

theorem app_addCmd_shape (key : String) (parts : List String) (user : User)
    (users : Users) :
    UsersShape key user users (AppPy.addCmd key parts user users).users := by
  unfold UsersShape AppPy.addCmd
  repeat' split
  all_goals first
    | (left; rfl)
    | (right; exact ⟨_, rfl, Or.inl rfl⟩)

theorem app_listCmd_users (user : User) (users : Users) :
    (AppPy.listCmd user users).users = users := by
  unfold AppPy.listCmd
  repeat' split
  all_goals rfl

theorem app_removeCmd_shape (key : String) (parts : List String) (user : User)
    (users : Users) :
    UsersShape key user users (AppPy.removeCmd key parts user users).users := by
  unfold UsersShape AppPy.removeCmd
  repeat' split
  all_goals first
    | (left; rfl)
    | (right; exact ⟨_, rfl, Or.inl rfl⟩)

theorem app_updateCmd_shape (key : String) (parts : List String) (user : User)
    (users : Users) :
    UsersShape key user users (AppPy.updateCmd key parts user users).users := by
  unfold UsersShape AppPy.updateCmd
  repeat' split
  all_goals first
    | (left; rfl)
    | (right; exact ⟨_, rfl, Or.inl rfl⟩)

theorem app_intervalCmd_shape (key : String) (parts : List String) (user : User)
    (users : Users) :
    UsersShape key user users (AppPy.intervalCmd key parts user users).users := by
  unfold UsersShape AppPy.intervalCmd
  repeat' split
  all_goals first
    | (left; rfl)
    | (right; refine ⟨_, rfl, Or.inr ?_⟩; exact le_max_left 1 _)

theorem app_notifyCmd_shape (key : String) (parts : List String) (user : User)
    (users : Users) :
    UsersShape key user users (AppPy.notifyCmd key parts user users).users := by
  unfold UsersShape AppPy.notifyCmd
  repeat' split
  all_goals first
    | (left; rfl)
    | (right; exact ⟨_, rfl, Or.inl rfl⟩)

theorem app_dispatch_shape (key cmd : String) (parts : List String)
    (user : User) (users : Users) :
    UsersShape key user users (AppPy.dispatch key cmd parts user users).users := by
  unfold AppPy.dispatch
  repeat' split
  all_goals first
    | (left; rfl)
    | exact app_addCmd_shape key parts user users
    | (rw [app_listCmd_users]; left; rfl)
    | exact app_removeCmd_shape key parts user users
    | exact app_updateCmd_shape key parts user users
    | exact app_intervalCmd_shape key parts user users
    | exact app_notifyCmd_shape key parts user users

theorem sb_dispatch_nonmut (key cmd : String) (parts : List String)
    (user : User) (users : Users)
    (h1 : cmd ≠ "/add") (h2 : cmd ≠ "/remove") (h3 : cmd ≠ "/update")
    (h4 : cmd ≠ "/interval") (h5 : cmd ≠ "/notify") :
    (StockBot.dispatch key cmd parts user users).users = users := by
  unfold StockBot.dispatch
  simp only [beq_eq_false_iff_ne.mpr h1, beq_eq_false_iff_ne.mpr h2,
    beq_eq_false_iff_ne.mpr h3, beq_eq_false_iff_ne.mpr h4,
    beq_eq_false_iff_ne.mpr h5, Bool.false_eq_true, if_false]
  repeat' split
  all_goals first
    | rfl
    | exact sb_listCmd_users user users

theorem checkWatch_of_url_ne (now : Int) (nf : Bool) (fetch : String → FetchResult)
    (w : Watch) (h : w.url ≠ "") :
    StockBot.checkWatch now nf fetch w =
      ⟨⟨w.url, evaluate_stock (fetch w.url), some now⟩,
       if evaluate_stock (fetch w.url) == "in" && w.last_status != "in" && nf
       then [w.url] else [], [w.url]⟩ := by
  unfold StockBot.checkWatch
  rw [if_neg (by simp [h] : ¬(w.url == "") = true)]

theorem checkWatch_of_url_empty (now : Int) (nf : Bool) (fetch : String → FetchResult)
    (w : Watch) (h : w.url = "") :
    StockBot.checkWatch now nf fetch w = ⟨w, [], []⟩ := by
  unfold StockBot.checkWatch
  rw [if_pos (by simp [h])]

theorem should_check_iff (now : Int) (u : User) :
    StockBot.should_check now u = true ↔
      (u.last_checked = none ∨
        ∃ t, u.last_checked = some t ∧ u.interval * 60 ≤ now - t) := by
  unfold StockBot.should_check
  cases h : u.last_checked with
  | none => simp
  | some t => simp [h]

theorem sweep_calls_of_urls_ne (now : Int) (nf : Bool) (fetch : String → FetchResult)
    (ws : List Watch) (h : ∀ w ∈ ws, w.url ≠ "") :
    ((ws.map (StockBot.checkWatch now nf fetch)).map StockBot.WatchStep.calls).flatten
      = ws.map Watch.url := by
  induction ws with
  | nil => rfl
  | cons w t ih =>
      have hw := h w (List.mem_cons_self w t)
      rw [List.map_cons, List.map_cons, List.flatten_cons,
        checkWatch_of_url_ne now nf fetch w hw,
        ih (fun x hx => h x (List.mem_cons_of_mem w hx)), List.map_cons]
      rfl

/-! ## Claim C4 -/

/-- C4: for every fetched page text, if any out-marker occurs in the
lowercased visible text the classifier returns "out" (even if in-markers are
also present); otherwise if any in-marker occurs it returns "in"; otherwise
it returns "unknown". -/
theorem C4_marker_precedence (text : String) :
    ((∃ m ∈ out_markers, strOccurs m (pyLower text) = true) →
        classifyText text = "out") ∧
    ((∀ m ∈ out_markers, strOccurs m (pyLower text) = false) →
      (∃ m ∈ in_markers, strOccurs m (pyLower text) = true) →
        classifyText text = "in") ∧
    ((∀ m ∈ out_markers, strOccurs m (pyLower text) = false) →
      (∀ m ∈ in_markers, strOccurs m (pyLower text) = false) →
        classifyText text = "unknown") := by
  refine ⟨?_, ?_, ?_⟩
  · intro h
    have ha : out_markers.any (fun m => strOccurs m (pyLower text)) = true := by
      rcases h with ⟨m, hm, hx⟩
      exact List.any_eq_true.mpr ⟨m, hm, hx⟩
    simp [classifyText, ha]
  · intro h hin
    have ha : out_markers.any (fun m => strOccurs m (pyLower text)) = false := by
      simp only [List.any_eq_false]
      intro m hm
      simp [h m hm]
    have hb : in_markers.any (fun m => strOccurs m (pyLower text)) = true := by
      rcases hin with ⟨m, hm, hx⟩
      exact List.any_eq_true.mpr ⟨m, hm, hx⟩
    simp [classifyText, ha, hb]
  · intro h h2
    have ha : out_markers.any (fun m => strOccurs m (pyLower text)) = false := by
      simp only [List.any_eq_false]
      intro m hm
      simp [h m hm]
    have hb : in_markers.any (fun m => strOccurs m (pyLower text)) = false := by
      simp only [List.any_eq_false]
      intro m hm
      simp [h2 m hm]
    simp [classifyText, ha, hb]

/-- Witness for C4: the spec's own scenario pages. -/
theorem C4_marker_precedence_witness :
    classifyText "Sold Out  Add to Cart" = "out" ∧
    classifyText "Add to Cart" = "in" ∧
    classifyText "nothing relevant here" = "unknown" :=
  ⟨(C4_marker_precedence "Sold Out  Add to Cart").1 (by decide),
   (C4_marker_precedence "Add to Cart").2.1 (by decide) (by decide),
   (C4_marker_precedence "nothing relevant here").2.2 (by decide) (by decide)⟩

/-! ## Claim C7 -/

/-- C7: classification is total — every fetch outcome yields one of the three
statuses, a raised failure yields "unknown", and any non-2xx status yields
"unknown" (the code tests `!= 200`, which covers every non-2xx code). -/
theorem C7_unknown_on_failure (s : Nat) (body : String)
    (h2xx : s < 200 ∨ 300 ≤ s) :
    evaluate_stock (FetchResult.success s body) = "unknown" ∧
    evaluate_stock FetchResult.failure = "unknown" ∧
    (∀ fr, evaluate_stock fr = "in" ∨ evaluate_stock fr = "out" ∨
      evaluate_stock fr = "unknown") := by
  refine ⟨?_, rfl, ?_⟩
  · have hs : s ≠ 200 := by omega
    simp [evaluate_stock, hs]
  · intro fr
    cases fr with
    | failure => right; right; rfl
    | success st b =>
        by_cases hst : st = 200
        · subst hst
          simp only [evaluate_stock, if_neg (by simp : ¬(200 ≠ 200)), classifyText]
          split
          · right; left; rfl
          · split
            · left; rfl
            · right; right; rfl
        · simp [evaluate_stock, hst]

/-- Witness for C7: a 404 response with an in-marker body still classifies
as "unknown". -/
theorem C7_unknown_on_failure_witness :
    ((404 : Nat) < 200 ∨ 300 ≤ 404) ∧
    evaluate_stock (FetchResult.success 404 "add to cart") = "unknown" :=
  ⟨by decide, (C7_unknown_on_failure 404 "add to cart" (by decide)).1⟩

/-! ## Claim C2 -/

/-- C2: in each classification step of a watch, a notification is sent iff
the new status is "in", the stored status is not "in" and the notify flag is
true; at most one message is sent; `last_status`/`last_checked` are updated
unconditionally; and re-observing "in" on a later cycle (any time, flag and
fetch outcome with the same url classified "in" again, or anything else)
fires zero further notifications because the stored status is already "in". -/
theorem C2_transition_gate (now now2 : Int) (nf nf2 : Bool)
    (fetch fetch2 : String → FetchResult) (w : Watch) (h : w.url ≠ "") :
    ((StockBot.checkWatch now nf fetch w).notes ≠ [] ↔
      (evaluate_stock (fetch w.url) = "in" ∧ w.last_status ≠ "in" ∧ nf = true)) ∧
    (StockBot.checkWatch now nf fetch w).notes.length ≤ 1 ∧
    (StockBot.checkWatch now nf fetch w).watch =
      ⟨w.url, evaluate_stock (fetch w.url), some now⟩ ∧
    (evaluate_stock (fetch w.url) = "in" →
      (StockBot.checkWatch now2 nf2 fetch2
        (StockBot.checkWatch now nf fetch w).watch).notes = []) := by
  rw [checkWatch_of_url_ne now nf fetch w h]
  refine ⟨?_, ?_, rfl, ?_⟩
  · constructor
    · intro hne
      by_cases hc : (evaluate_stock (fetch w.url) == "in"
          && w.last_status != "in" && nf) = true
      · simpa [Bool.and_eq_true, beq_iff_eq, bne_iff_ne, and_assoc] using hc
      · simp only [hc] at hne
        simp at hne
    · rintro ⟨h1, h2, h3⟩
      simp [h1, h2, h3]
  · split <;> simp
  · intro hin
    rw [checkWatch_of_url_ne now2 nf2 fetch2 _ (by simpa using h)]
    simp [hin]

/-- Witness for C2 at a concrete watch and fetch outcome. -/
theorem C2_transition_gate_witness :
    (Watch.mk "https://x" "unknown" none).url ≠ "" ∧
    ((StockBot.checkWatch 100 true (fun _ => FetchResult.success 200 "in stock")
        (Watch.mk "https://x" "unknown" none)).notes ≠ [] ↔
      (evaluate_stock (FetchResult.success 200 "in stock") = "in" ∧
        ("unknown" : String) ≠ "in" ∧ (true : Bool) = true)) :=
  ⟨by decide,
   (C2_transition_gate 100 200 true true
      (fun _ => FetchResult.success 200 "in stock") (fun _ => FetchResult.failure)
      (Watch.mk "https://x" "unknown" none) (by decide)).1⟩

/-! ## Claim C3 -/

/-- C3: per-user all-or-nothing gating of the scheduler: the user is due iff
`last_checked` is absent or `now - last_checked ≥ interval·60`; when not due
the user step is a complete no-op (no classifier call, no notification, no
field change); when due every watch is classified (the classifier-call log is
exactly the url list) and `last_checked` is set to `now` unconditionally. -/
theorem C3_per_user_gating (now : Int) (fetch : String → FetchResult) (u : User)
    (hurls : ∀ w ∈ u.watches, w.url ≠ "") :
    (StockBot.should_check now u = true ↔
      (u.last_checked = none ∨
        ∃ t, u.last_checked = some t ∧ u.interval * 60 ≤ now - t)) ∧
    (StockBot.should_check now u = false →
      StockBot.checkUser now fetch u = ⟨u, [], [], false⟩) ∧
    (StockBot.should_check now u = true →
      (StockBot.checkUser now fetch u).calls = u.watches.map Watch.url ∧
      (StockBot.checkUser now fetch u).user.last_checked = some now ∧
      (StockBot.checkUser now fetch u).user.watches =
        u.watches.map (fun w => (StockBot.checkWatch now u.notify fetch w).watch)) := by
  refine ⟨should_check_iff now u, ?_, ?_⟩
  · intro hf
    unfold StockBot.checkUser
    rw [hf]
    rfl
  · intro ht
    have hred : StockBot.checkUser now fetch u =
        ⟨{ u with
            watches := (u.watches.map
              (StockBot.checkWatch now u.notify fetch)).map StockBot.WatchStep.watch,
            last_checked := some now },
          ((u.watches.map
            (StockBot.checkWatch now u.notify fetch)).map StockBot.WatchStep.notes).flatten,
          ((u.watches.map
            (StockBot.checkWatch now u.notify fetch)).map StockBot.WatchStep.calls).flatten,
          true⟩ := by
      unfold StockBot.checkUser
      rw [ht]
      rfl
    rw [hred]
    refine ⟨sweep_calls_of_urls_ne now u.notify fetch u.watches hurls, rfl, ?_⟩
    simp [List.map_map, Function.comp_def]

/-- Witness for C3: a due user (never checked) with two watches. -/
theorem C3_per_user_gating_witness :
    (∀ w ∈ (User.mk [Watch.mk "https://a" "unknown" none,
        Watch.mk "https://b" "in" none] 5 true none).watches, w.url ≠ "") ∧
    (StockBot.should_check 1000
        (User.mk [Watch.mk "https://a" "unknown" none,
          Watch.mk "https://b" "in" none] 5 true none) = true →
      (StockBot.checkUser 1000 (fun _ => FetchResult.failure)
          (User.mk [Watch.mk "https://a" "unknown" none,
            Watch.mk "https://b" "in" none] 5 true none)).calls =
        ["https://a", "https://b"] ∧
      (StockBot.checkUser 1000 (fun _ => FetchResult.failure)
          (User.mk [Watch.mk "https://a" "unknown" none,
            Watch.mk "https://b" "in" none] 5 true none)).user.last_checked =
        some 1000 ∧
      (StockBot.checkUser 1000 (fun _ => FetchResult.failure)
          (User.mk [Watch.mk "https://a" "unknown" none,
            Watch.mk "https://b" "in" none] 5 true none)).user.watches =
        [Watch.mk "https://a" "unknown" (some 1000),
         Watch.mk "https://b" "unknown" (some 1000)]) :=
  ⟨by decide,
   (C3_per_user_gating 1000 (fun _ => FetchResult.failure)
      (User.mk [Watch.mk "https://a" "unknown" none,
        Watch.mk "https://b" "in" none] 5 true none) (by decide)).2.2⟩

/-! ## Claim C10 -/

/-- C10: in a due user's sweep, a watch with an empty url is skipped whole —
never classified, never notified, its fields unchanged — while the
surrounding watches of the same user are processed as usual. -/
theorem C10_empty_url_skipped (now : Int) (fetch : String → FetchResult) (u : User)
    (pre post : List Watch) (w : Watch)
    (hw : u.watches = pre ++ w :: post) (hurl : w.url = "")
    (hdue : StockBot.should_check now u = true) :
    StockBot.checkWatch now u.notify fetch w = ⟨w, [], []⟩ ∧
    (StockBot.checkUser now fetch u).user.watches =
      pre.map (fun v => (StockBot.checkWatch now u.notify fetch v).watch)
        ++ w :: post.map (fun v => (StockBot.checkWatch now u.notify fetch v).watch) ∧
    (StockBot.checkUser now fetch u).notes =
      (pre.map (fun v => (StockBot.checkWatch now u.notify fetch v).notes)).flatten
        ++ (post.map (fun v => (StockBot.checkWatch now u.notify fetch v).notes)).flatten ∧
    (StockBot.checkUser now fetch u).calls =
      (pre.map (fun v => (StockBot.checkWatch now u.notify fetch v).calls)).flatten
        ++ (post.map (fun v => (StockBot.checkWatch now u.notify fetch v).calls)).flatten := by
  have hcw := checkWatch_of_url_empty now u.notify fetch w hurl
  refine ⟨hcw, ?_, ?_, ?_⟩ <;>
  · unfold StockBot.checkUser
    rw [hdue]
    simp [hw, hcw, List.map_append, List.flatten_append, List.map_map,
      Function.comp_def]

/-- Witness for C10: a user whose middle watch has an empty url. -/
theorem C10_empty_url_skipped_witness :
    (User.mk [Watch.mk "https://a" "unknown" none, Watch.mk "" "out" (some 7),
        Watch.mk "https://b" "unknown" none] 5 true none).watches =
      [Watch.mk "https://a" "unknown" none] ++ Watch.mk "" "out" (some 7)
        :: [Watch.mk "https://b" "unknown" none] ∧
    (Watch.mk "" "out" (some 7)).url = "" ∧
    StockBot.checkWatch 50
        (User.mk [Watch.mk "https://a" "unknown" none, Watch.mk "" "out" (some 7),
          Watch.mk "https://b" "unknown" none] 5 true none).notify
        (fun _ => FetchResult.success 200 "in stock") (Watch.mk "" "out" (some 7)) =
      ⟨Watch.mk "" "out" (some 7), [], []⟩ :=
  ⟨by decide, by decide,
   (C10_empty_url_skipped 50 (fun _ => FetchResult.success 200 "in stock")
      (User.mk [Watch.mk "https://a" "unknown" none, Watch.mk "" "out" (some 7),
        Watch.mk "https://b" "unknown" none] 5 true none)
      [Watch.mk "https://a" "unknown" none] [Watch.mk "https://b" "unknown" none]
      (Watch.mk "" "out" (some 7)) (by decide) (by decide) (by decide)).1⟩

theorem sb_handle_command_eq (chat : Int) (text : String) (users : Users)
    (c : String) (rest : List String) (hp : pySplit (pyStrip text) = c :: rest) :
    StockBot.handle_command chat text users =
      StockBot.dispatch (toString chat) (pyLower c) (c :: rest)
        (userOrDefault (toString chat) users) (ensureUser (toString chat) users) := by
  unfold StockBot.handle_command
  rw [hp]

theorem sb_handle_command_empty (chat : Int) (text : String) (users : Users)
    (hp : pySplit (pyStrip text) = []) :
    StockBot.handle_command chat text users = ⟨users, ["❌ Empty message."], true⟩ := by
  unfold StockBot.handle_command
  rw [hp]

theorem app_handle_command_eq (chat : Int) (text : String) (users : Users)
    (c : String) (rest : List String) (hp : pySplitMax2 (pyStrip text) = c :: rest) :
    AppPy.handle_command chat text users =
      AppPy.dispatch (toString chat) (pyLower c) (c :: rest)
        (userOrDefault (toString chat) users) (ensureUser (toString chat) users) := by
  unfold AppPy.handle_command
  rw [hp]

theorem app_handle_command_empty (chat : Int) (text : String) (users : Users)
    (hp : pySplitMax2 (pyStrip text) = []) :
    AppPy.handle_command chat text users =
      ⟨ensureUser (toString chat) users, [], true⟩ := by
  unfold AppPy.handle_command
  rw [hp]

theorem sb_dispatch_add (key : String) (parts : List String) (user : User)
    (users : Users) :
    StockBot.dispatch key "/add" parts user users =
      StockBot.addCmd key parts user users := by
  unfold StockBot.dispatch
  rfl

theorem sb_dispatch_remove (key : String) (parts : List String) (user : User)
    (users : Users) :
    StockBot.dispatch key "/remove" parts user users =
      StockBot.removeCmd key parts user users := by
  unfold StockBot.dispatch
  rfl

theorem sb_dispatch_update (key : String) (parts : List String) (user : User)
    (users : Users) :
    StockBot.dispatch key "/update" parts user users =
      StockBot.updateCmd key parts user users := by
  unfold StockBot.dispatch
  rfl

theorem app_dispatch_remove (key : String) (parts : List String) (user : User)
    (users : Users) :
    AppPy.dispatch key "/remove" parts user users =
      AppPy.removeCmd key parts user users := by
  unfold AppPy.dispatch
  rfl

theorem app_dispatch_update (key : String) (parts : List String) (user : User)
    (users : Users) :
    AppPy.dispatch key "/update" parts user users =
      AppPy.updateCmd key parts user users := by
  unfold AppPy.dispatch
  rfl

theorem pyPop_of_index_none (l : List α) (i : Int) (h : pyIndex l.length i = none) :
    pyPop l i = none := by
  unfold pyPop
  rw [h]

/-! ## Claim C8 -/

/-- C8: the invariant `interval ≥ 1` is preserved by every command in both
variants: a fresh user starts at 5, stock_bot.py's `/interval` rejects values
below 1, app.py's clamps with `max(1, m)`, and no other command touches the
interval. -/
theorem C8_interval_invariant (chat : Int) (text : String) (users : Users)
    (hinv : ∀ k u, getUser k users = some u → 1 ≤ u.interval) :
    1 ≤ defaultUser.interval ∧
    (∀ k u, getUser k (StockBot.handle_command chat text users).users = some u →
      1 ≤ u.interval) ∧
    (∀ k u, getUser k (AppPy.handle_command chat text users).users = some u →
      1 ≤ u.interval) := by
  have hd : (1 : Int) ≤ defaultUser.interval := by norm_num [defaultUser]
  have hens : ∀ k v, getUser k (ensureUser (toString chat) users) = some v →
      1 ≤ v.interval :=
    ensureUser_inv (fun v => 1 ≤ v.interval) (toString chat) users hinv hd
  have huser : 1 ≤ (userOrDefault (toString chat) users).interval :=
    userOrDefault_inv (fun v => 1 ≤ v.interval) (toString chat) users hinv hd
  refine ⟨hd, ?_, ?_⟩
  · cases hp : pySplit (pyStrip text) with
    | nil =>
        rw [sb_handle_command_empty chat text users hp]
        exact hinv
    | cons c rest =>
        rw [sb_handle_command_eq chat text users c rest hp]
        have hsh := sb_dispatch_shape (toString chat) (pyLower c) (c :: rest)
          (userOrDefault (toString chat) users) (ensureUser (toString chat) users)
        unfold UsersShape at hsh
        rcases hsh with hsh | ⟨u1, hsh, hint⟩
        · rw [hsh]; exact hens
        · rw [hsh]
          refine getUser_inv _ _ _ _ hens ?_
          rcases hint with h | h
          · rw [h]; exact huser
          · exact h
  · cases hp : pySplitMax2 (pyStrip text) with
    | nil =>
        rw [app_handle_command_empty chat text users hp]
        exact hens
    | cons c rest =>
        rw [app_handle_command_eq chat text users c rest hp]
        have hsh := app_dispatch_shape (toString chat) (pyLower c) (c :: rest)
          (userOrDefault (toString chat) users) (ensureUser (toString chat) users)
        unfold UsersShape at hsh
        rcases hsh with hsh | ⟨u1, hsh, hint⟩
        · rw [hsh]; exact hens
        · rw [hsh]
          refine getUser_inv _ _ _ _ hens ?_
          rcases hint with h | h
          · rw [h]; exact huser
          · exact h

/-- Witness for C8: `/interval 0` on an empty table. -/
theorem C8_interval_invariant_witness :
    1 ≤ defaultUser.interval ∧
    (∀ k u, getUser k (StockBot.handle_command 9 "/interval 0" []).users = some u →
      1 ≤ u.interval) ∧
    (∀ k u, getUser k (AppPy.handle_command 9 "/interval 0" []).users = some u →
      1 ≤ u.interval) :=
  C8_interval_invariant 9 "/interval 0" []
    (fun k u h => by simp [getUser] at h)

/-! ## Claim C9 -/

/-- C9 as stated is false for stock_bot.py: a whitespace-only inbound text
from an unseen chat identity creates no user record — the empty-message reply
returns before the ensure step (src/stock_bot.py lines 70-72 vs 78-85). -/
theorem C9_whitespace_no_user :
    StockBot.handle_command 5 " " [] = ⟨[], ["❌ Empty message."], true⟩ ∧
    getUser "5" (StockBot.handle_command 5 " " []).users = none :=
  ⟨by decide, by decide⟩

/-- C9 (amended): for any inbound text whose stripped form is non-empty,
stock_bot.py's `handle_command` ensures a user record exists for the chat
identity, created as `defaultUser` (no watches, interval 5, notify on,
`last_checked` absent) when the identity was unseen; for commands that do
not mutate (unknown commands, /start, /help, /list, /stats, and any
error-rejected form) the stored record is exactly `defaultUser`.  app.py
creates the record for any text whatsoever, including whitespace-only. -/
theorem C9_default_user_created (chat : Int) (text : String) (users : Users)
    (habs : getUser (toString chat) users = none)
    (c : String) (rest : List String)
    (hp : pySplit (pyStrip text) = c :: rest) :
    (∃ u, getUser (toString chat)
      (StockBot.handle_command chat text users).users = some u) ∧
    (pyLower c ≠ "/add" → pyLower c ≠ "/remove" → pyLower c ≠ "/update" →
      pyLower c ≠ "/interval" → pyLower c ≠ "/notify" →
      getUser (toString chat) (StockBot.handle_command chat text users).users =
        some defaultUser) ∧
    (∀ anyText : String, ∃ u, getUser (toString chat)
      (AppPy.handle_command chat anyText users).users = some u) := by
  have hdef : userOrDefault (toString chat) users = defaultUser := by
    unfold userOrDefault
    rw [habs]
    rfl
  refine ⟨?_, ?_, ?_⟩
  · rw [sb_handle_command_eq chat text users c rest hp]
    have hsh := sb_dispatch_shape (toString chat) (pyLower c) (c :: rest)
      (userOrDefault (toString chat) users) (ensureUser (toString chat) users)
    unfold UsersShape at hsh
    rcases hsh with hsh | ⟨u1, hsh, _⟩
    · rw [hsh, getUser_ensureUser]
      exact ⟨_, rfl⟩
    · rw [hsh, getUser_setUser, if_pos rfl]
      exact ⟨u1, rfl⟩
  · intro h1 h2 h3 h4 h5
    rw [sb_handle_command_eq chat text users c rest hp,
      sb_dispatch_nonmut _ _ _ _ _ h1 h2 h3 h4 h5, getUser_ensureUser, hdef]
  · intro anyText
    cases hp2 : pySplitMax2 (pyStrip anyText) with
    | nil =>
        rw [app_handle_command_empty chat anyText users hp2, getUser_ensureUser]
        exact ⟨_, rfl⟩
    | cons c2 rest2 =>
        rw [app_handle_command_eq chat anyText users c2 rest2 hp2]
        have hsh := app_dispatch_shape (toString chat) (pyLower c2) (c2 :: rest2)
          (userOrDefault (toString chat) users) (ensureUser (toString chat) users)
        unfold UsersShape at hsh
        rcases hsh with hsh | ⟨u1, hsh, _⟩
        · rw [hsh, getUser_ensureUser]
          exact ⟨_, rfl⟩
        · rw [hsh, getUser_setUser, if_pos rfl]
          exact ⟨u1, rfl⟩

/-- Witness for C9 (amended): an unknown command from a fresh chat stores
exactly the default record. -/
theorem C9_default_user_created_witness :
    getUser "7" ([] : Users) = none ∧
    pySplit (pyStrip "/bogus") = ["/bogus"] ∧
    getUser "7" (StockBot.handle_command 7 "/bogus" []).users = some defaultUser :=
  ⟨by decide, by decide,
   (C9_default_user_created 7 "/bogus" [] (by decide) "/bogus" [] (by decide)).2.1
     (by decide) (by decide) (by decide) (by decide) (by decide)⟩

/-! ## Claim C5 -/

/-- C5 as stated is false for app.py: `/add not-a-url` is *not* rejected —
app.py's `/add` performs no URL validation, appends the bogus watch, and
replies with success (src/app.py lines 145-153). -/
theorem C5_app_add_unvalidated :
    is_valid_url "not-a-url" = false ∧
    AppPy.handle_command 5 "/add not-a-url" [] =
      ⟨[("5", ⟨[⟨"not-a-url", "unknown", none⟩], 5, true, none⟩)],
       ["✅ Added: not-a-url"], false⟩ :=
  ⟨by decide, by decide⟩

/-- C5 (amended): in stock_bot.py, `/add` with an argument that does not
parse as a URL with an http/https scheme and non-empty host is rejected with
an error reply and leaves the user's watch list unchanged; a valid URL
appends exactly one Watch with status "unknown" and absent `last_checked`.
In app.py, `/add` performs no validation and appends any argument. -/
theorem C5_add_url_validation (chat : Int) (text : String) (users : Users)
    (c link : String) (rest : List String)
    (hp : pySplit (pyStrip text) = c :: link :: rest)
    (hc : pyLower c = "/add") :
    (is_valid_url (pyStrip link) = false →
      getUser (toString chat) (StockBot.handle_command chat text users).users =
        some (userOrDefault (toString chat) users) ∧
      (StockBot.handle_command chat text users).replies =
        ["❌ That doesn\x27t look like a valid URL."] ∧
      (StockBot.handle_command chat text users).changed = false) ∧
    (is_valid_url (pyStrip link) = true →
      getUser (toString chat) (StockBot.handle_command chat text users).users =
        some { userOrDefault (toString chat) users with
          watches := (userOrDefault (toString chat) users).watches
            ++ [⟨pyStrip link, "unknown", none⟩] } ∧
      (StockBot.handle_command chat text users).replies =
        ["✅ Added and will monitor: " ++ pyStrip link] ∧
      (StockBot.handle_command chat text users).changed = true) := by
  rw [sb_handle_command_eq chat text users c (link :: rest) hp, hc,
    sb_dispatch_add]
  constructor
  · intro hbad
    simp only [StockBot.addCmd]
    rw [hbad]
    exact ⟨getUser_ensureUser (toString chat) users, rfl, rfl⟩
  · intro hgood
    simp only [StockBot.addCmd]
    rw [hgood, if_neg (by decide : ¬((!true : Bool) = true))]
    refine ⟨?_, rfl, rfl⟩
    rw [getUser_setUser, if_pos rfl]

/-- Witness for C5 (amended): both the rejection and the append at concrete
inputs. -/
theorem C5_add_url_validation_witness :
    pySplit (pyStrip "/add nonsense") = ["/add", "nonsense"] ∧
    (is_valid_url (pyStrip "nonsense") = false →
      getUser "3" (StockBot.handle_command 3 "/add nonsense" []).users =
        some (userOrDefault "3" []) ∧
      (StockBot.handle_command 3 "/add nonsense" []).replies =
        ["❌ That doesn\x27t look like a valid URL."] ∧
      (StockBot.handle_command 3 "/add nonsense" []).changed = false) ∧
    (is_valid_url (pyStrip "https://example.com/p") = true →
      getUser "3" (StockBot.handle_command 3 "/add https://example.com/p" []).users =
        some { userOrDefault "3" [] with
          watches := (userOrDefault "3" []).watches
            ++ [⟨pyStrip "https://example.com/p", "unknown", none⟩] } ∧
      (StockBot.handle_command 3 "/add https://example.com/p" []).replies =
        ["✅ Added and will monitor: " ++ pyStrip "https://example.com/p"] ∧
      (StockBot.handle_command 3 "/add https://example.com/p" []).changed = true) :=
  ⟨by decide,
   (C5_add_url_validation 3 "/add nonsense" [] "/add" "nonsense" []
      (by decide) (by decide)).1,
   (C5_add_url_validation 3 "/add https://example.com/p" [] "/add"
      "https://example.com/p" [] (by decide) (by decide)).2⟩

/-! ## Claim C6 -/

/-- C6 as stated is false: `/remove 0` has index 0 outside 1..len, yet
Python's negative indexing makes `pop(-1)` remove the *last* watch and reply
with success — state is mutated, no error reply. -/
theorem C6_remove_zero_wraps :
    StockBot.handle_command 5 "/remove 0"
        [("5", ⟨[⟨"https://a", "unknown", none⟩, ⟨"https://b", "unknown", none⟩],
          5, true, none⟩)] =
      ⟨[("5", ⟨[⟨"https://a", "unknown", none⟩], 5, true, none⟩)],
       ["🗑️ Removed: https://b"], true⟩ := by decide

/-- C6 (amended): in both variants, `/remove` and `/update` with a
non-numeric index, or a 1-based index n whose Python conversion n−1 falls
outside the valid index range [−len, len) (i.e. n < 1−len or n > len),
answer an error reply and leave the table unchanged; handle_command is a
total function (app.py additionally reports no escaped exception,
`raised = false`), so no fault escapes.  (Arguments with 1−len ≤ n ≤ 0 are
*not* rejected: Python's negative indexing wraps them to the end of the
list — see the counterexample.)  The stock_bot.py text is split with
`split()`, the app.py text with `split(maxsplit=2)`, hence the separate
text/parts hypotheses per variant. -/
theorem C6_bad_index_rejected (chat : Int) (text appText : String) (users : Users)
    (c idxStr : String) (rest : List String)
    (c2 idxStr2 : String) (rest2 : List String)
    (hp : pySplit (pyStrip text) = c :: idxStr :: rest)
    (hp2 : pySplitMax2 (pyStrip appText) = c2 :: idxStr2 :: rest2)
    (hbad : pyInt idxStr = none ∨
      ∃ n, pyInt idxStr = some n ∧
        pyIndex (userOrDefault (toString chat) users).watches.length (n - 1) = none)
    (hbad2 : pyInt idxStr2 = none ∨
      ∃ n, pyInt idxStr2 = some n ∧
        pyIndex (userOrDefault (toString chat) users).watches.length (n - 1) = none) :
    (pyLower c = "/remove" →
      getUser (toString chat) (StockBot.handle_command chat text users).users =
        some (userOrDefault (toString chat) users) ∧
      (StockBot.handle_command chat text users).replies = ["❌ Invalid index."] ∧
      (StockBot.handle_command chat text users).changed = false) ∧
    (pyLower c = "/update" →
      getUser (toString chat) (StockBot.handle_command chat text users).users =
        some (userOrDefault (toString chat) users) ∧
      ((StockBot.handle_command chat text users).replies = ["❌ Invalid index or error."] ∨
        (StockBot.handle_command chat text users).replies =
          ["Usage: /update <index> <new_link>"] ∨
        (StockBot.handle_command chat text users).replies =
          ["❌ That doesn\x27t look like a valid URL."]) ∧
      (StockBot.handle_command chat text users).changed = false) ∧
    (pyLower c2 = "/remove" →
      getUser (toString chat) (AppPy.handle_command chat appText users).users =
        some (userOrDefault (toString chat) users) ∧
      (AppPy.handle_command chat appText users).replies = ["❌ Invalid index."] ∧
      (AppPy.handle_command chat appText users).raised = false) ∧
    (pyLower c2 = "/update" →
      getUser (toString chat) (AppPy.handle_command chat appText users).users =
        some (userOrDefault (toString chat) users) ∧
      ((AppPy.handle_command chat appText users).replies = ["❌ Invalid index or error."] ∨
        (AppPy.handle_command chat appText users).replies =
          ["Usage: /update <index> <new_link>"]) ∧
      (AppPy.handle_command chat appText users).raised = false) := by
  refine ⟨?_, ?_, ?_, ?_⟩
  · intro hc
    rw [sb_handle_command_eq chat text users c (idxStr :: rest) hp, hc,
      sb_dispatch_remove]
    simp only [StockBot.removeCmd]
    rcases hbad with hn | ⟨n, hn, hidx⟩
    · rw [hn]
      exact ⟨getUser_ensureUser (toString chat) users, rfl, rfl⟩
    · rw [hn]
      dsimp only
      rw [pyPop_of_index_none _ _ hidx]
      exact ⟨getUser_ensureUser (toString chat) users, rfl, rfl⟩
  · intro hc
    rw [sb_handle_command_eq chat text users c (idxStr :: rest) hp, hc,
      sb_dispatch_update]
    cases rest with
    | nil =>
        simp only [StockBot.updateCmd]
        refine ⟨getUser_ensureUser (toString chat) users, ?_, ?_⟩ <;> simp
    | cons link rest2 =>
        simp only [StockBot.updateCmd]
        rcases hbad with hn | ⟨n, hn, hidx⟩
        · rw [hn]
          exact ⟨getUser_ensureUser (toString chat) users, Or.inl rfl, rfl⟩
        · rw [hn]
          dsimp only
          by_cases hurl : is_valid_url (pyStrip link) = true
          · rw [hurl, hidx]
            exact ⟨getUser_ensureUser (toString chat) users, Or.inl rfl, rfl⟩
          · rw [Bool.not_eq_true] at hurl
            rw [hurl]
            exact ⟨getUser_ensureUser (toString chat) users,
              Or.inr (Or.inr rfl), rfl⟩
  · intro hc
    rw [app_handle_command_eq chat appText users c2 (idxStr2 :: rest2) hp2, hc,
      app_dispatch_remove]
    simp only [AppPy.removeCmd]
    rcases hbad2 with hn | ⟨n, hn, hidx⟩
    · rw [hn]
      exact ⟨getUser_ensureUser (toString chat) users, rfl, rfl⟩
    · rw [hn]
      dsimp only
      rw [pyPop_of_index_none _ _ hidx]
      exact ⟨getUser_ensureUser (toString chat) users, rfl, rfl⟩
  · intro hc
    rw [app_handle_command_eq chat appText users c2 (idxStr2 :: rest2) hp2, hc,
      app_dispatch_update]
    cases rest2 with
    | nil =>
        simp only [AppPy.updateCmd]
        refine ⟨getUser_ensureUser (toString chat) users, ?_, ?_⟩ <;> simp
    | cons link rtl =>
        simp only [AppPy.updateCmd]
        rcases hbad2 with hn | ⟨n, hn, hidx⟩
        · rw [hn]
          exact ⟨getUser_ensureUser (toString chat) users, Or.inl rfl, rfl⟩
        · rw [hn]
          dsimp only
          rw [hidx]
          exact ⟨getUser_ensureUser (toString chat) users, Or.inl rfl, rfl⟩

/-- Witness for C6 (amended): `/remove 99` on a 2-watch list, in both
variants. -/
theorem C6_bad_index_rejected_witness :
    pySplit (pyStrip "/remove 99") = ["/remove", "99"] ∧
    pySplitMax2 (pyStrip "/remove 99") = ["/remove", "99"] ∧
    (getUser "5" (StockBot.handle_command 5 "/remove 99"
        [("5", ⟨[⟨"https://a", "unknown", none⟩, ⟨"https://b", "unknown", none⟩],
          5, true, none⟩)]).users =
      some (userOrDefault "5"
        [("5", ⟨[⟨"https://a", "unknown", none⟩, ⟨"https://b", "unknown", none⟩],
          5, true, none⟩)]) ∧
     (StockBot.handle_command 5 "/remove 99"
        [("5", ⟨[⟨"https://a", "unknown", none⟩, ⟨"https://b", "unknown", none⟩],
          5, true, none⟩)]).replies = ["❌ Invalid index."] ∧
     (StockBot.handle_command 5 "/remove 99"
        [("5", ⟨[⟨"https://a", "unknown", none⟩, ⟨"https://b", "unknown", none⟩],
          5, true, none⟩)]).changed = false) ∧
    (getUser "5" (AppPy.handle_command 5 "/remove 99"
        [("5", ⟨[⟨"https://a", "unknown", none⟩, ⟨"https://b", "unknown", none⟩],
          5, true, none⟩)]).users =
      some (userOrDefault "5"
        [("5", ⟨[⟨"https://a", "unknown", none⟩, ⟨"https://b", "unknown", none⟩],
          5, true, none⟩)]) ∧
     (AppPy.handle_command 5 "/remove 99"
        [("5", ⟨[⟨"https://a", "unknown", none⟩, ⟨"https://b", "unknown", none⟩],
          5, true, none⟩)]).replies = ["❌ Invalid index."] ∧
     (AppPy.handle_command 5 "/remove 99"
        [("5", ⟨[⟨"https://a", "unknown", none⟩, ⟨"https://b", "unknown", none⟩],
          5, true, none⟩)]).raised = false) :=
  ⟨by decide, by decide,
   (C6_bad_index_rejected 5 "/remove 99" "/remove 99"
      [("5", ⟨[⟨"https://a", "unknown", none⟩, ⟨"https://b", "unknown", none⟩],
        5, true, none⟩)] "/remove" "99" [] "/remove" "99" [] (by decide) (by decide)
      (Or.inr ⟨99, by decide, by decide⟩)
      (Or.inr ⟨99, by decide, by decide⟩)).1 (by decide),
   (C6_bad_index_rejected 5 "/remove 99" "/remove 99"
      [("5", ⟨[⟨"https://a", "unknown", none⟩, ⟨"https://b", "unknown", none⟩],
        5, true, none⟩)] "/remove" "99" [] "/remove" "99" [] (by decide) (by decide)
      (Or.inr ⟨99, by decide, by decide⟩)
      (Or.inr ⟨99, by decide, by decide⟩)).2.2.1 (by decide)⟩

/-! ## Claim C1 -/

theorem persist_last_ok (pre : List StockBot.CursorEvent) (c : Int)
    (h : ∀ e ∈ pre, isApply e = true) :
    persistOnlyAfterApplies (pre ++ [StockBot.CursorEvent.persist c]) = true := by
  induction pre with
  | nil => rfl
  | cons e t ih =>
      have he := h e (List.mem_cons_self e t)
      cases e with
      | persist _ => simp [isApply] at he
      | applyMsg uid chat txt =>
          have ih2 := ih (fun x hx => h x (List.mem_cons_of_mem _ hx))
          simpa [persistOnlyAfterApplies] using ih2

theorem mainFold_spec (updates : List StockBot.Update) (acc : StockBot.MainAcc)
    (h : ∀ e ∈ acc.events, isApply e = true) :
    (∀ e ∈ (updates.foldl StockBot.mainStep acc).events, isApply e = true) ∧
    (updates.foldl StockBot.mainStep acc).maxId =
      (updates.filterMap StockBot.Update.update_id).foldl max acc.maxId := by
  induction updates generalizing acc with
  | nil => exact ⟨h, rfl⟩
  | cons u t ih =>
      have hstep : (∀ e ∈ (StockBot.mainStep acc u).events, isApply e = true) ∧
          (StockBot.mainStep acc u).maxId =
            (match u.update_id with
             | none => acc.maxId
             | some uid => max acc.maxId uid) := by
        cases hu : u.update_id with
        | none =>
            refine ⟨?_, by simp [StockBot.mainStep, hu]⟩
            simpa [StockBot.mainStep, hu] using h
        | some uid =>
            cases hm : u.message with
            | none =>
                refine ⟨?_, by simp [StockBot.mainStep, hu, hm, ite_gt_eq_max]⟩
                simpa [StockBot.mainStep, hu, hm] using h
            | some p =>
                obtain ⟨chat, txt⟩ := p
                by_cases hg : (chat == 0 || txt == "") = true
                · refine ⟨?_, by simp [StockBot.mainStep, hu, hm, hg, ite_gt_eq_max]⟩
                  simpa [StockBot.mainStep, hu, hm, hg] using h
                · rw [Bool.not_eq_true] at hg
                  constructor
                  · intro e he
                    simp only [StockBot.mainStep, hu, hm, hg, Bool.false_eq_true,
                      if_false, List.mem_append, List.mem_singleton] at he
                    rcases he with he | he
                    · exact h e he
                    · rw [he]; rfl
                  · simp [StockBot.mainStep, hu, hm, hg, ite_gt_eq_max]
      rw [List.foldl_cons, List.filterMap_cons]
      have hrest := ih (StockBot.mainStep acc u) hstep.1
      refine ⟨hrest.1, ?_⟩
      rw [hrest.2, hstep.2]
      cases hu : u.update_id with
      | none => rfl
      | some uid => rw [List.foldl_cons]

/-- C1 as stated is false for app.py: its polling loop persists the cursor
immediately per update (src/app.py lines 268-269), *before* the update's
message is handed to `handle_command` (line 276), so in a two-message batch
the first persist event precedes both apply events. -/
theorem C1_app_persists_before_apply :
    (AppPy.pollCycle [AppPy.Update.mk 1 (some (7, "/help")),
        AppPy.Update.mk 2 (some (7, "/list"))] [] 0).2.2 =
      [StockBot.CursorEvent.persist 1, StockBot.CursorEvent.applyMsg 1 7 "/help",
       StockBot.CursorEvent.persist 2, StockBot.CursorEvent.applyMsg 2 7 "/list"] ∧
    persistOnlyAfterApplies
      (AppPy.pollCycle [AppPy.Update.mk 1 (some (7, "/help")),
        AppPy.Update.mk 2 (some (7, "/list"))] [] 0).2.2 = false :=
  ⟨by decide, by decide⟩

/-- C1 (amended): in stock_bot.py's run cycle the snapshot — and with it the
cursor — is persisted exactly once, by the final `save_data`, after every
message of the pulled batch has been applied; the persisted cursor equals
`max(oldCursor, max of ids seen in the batch)` (as a fold of `max`) and never
regresses.  The app.py variant does *not* satisfy the "only after the whole
batch is applied" part: it persists the cursor per update, before handling
that update's message (see the counterexample). -/
theorem C1_cursor_persisted_after_batch (updates : List StockBot.Update)
    (now : Int) (fetch : String → FetchResult) (data : StockBot.Data)
    (h0 : 0 ≤ data.last_update_id) :
    persistOnlyAfterApplies (StockBot.main_run updates now fetch data).events = true ∧
    (∃ pre, (StockBot.main_run updates now fetch data).events =
        pre ++ [StockBot.CursorEvent.persist
          (StockBot.main_run updates now fetch data).data.last_update_id] ∧
        ∀ e ∈ pre, isApply e = true) ∧
    (StockBot.main_run updates now fetch data).data.last_update_id =
      (updates.filterMap StockBot.Update.update_id).foldl max data.last_update_id ∧
    data.last_update_id ≤
      (StockBot.main_run updates now fetch data).data.last_update_id := by
  obtain ⟨hev, hmax⟩ := mainFold_spec updates
    ⟨data.users, data.last_update_id, false, []⟩ (by intro e he; cases he)
  set acc := updates.foldl StockBot.mainStep
    ⟨data.users, data.last_update_id, false, []⟩ with hacc
  have hev2 : (StockBot.main_run updates now fetch data).events =
      acc.events ++ [StockBot.CursorEvent.persist
        (if acc.maxId ≠ 0 ∧ acc.maxId > data.last_update_id then acc.maxId
         else data.last_update_id)] := rfl
  have hcur : (StockBot.main_run updates now fetch data).data.last_update_id =
      (if acc.maxId ≠ 0 ∧ acc.maxId > data.last_update_id then acc.maxId
       else data.last_update_id) := rfl
  have hge : data.last_update_id ≤ acc.maxId := by
    rw [hmax]
    exact le_foldl_max _ _
  have hcv : (if acc.maxId ≠ 0 ∧ acc.maxId > data.last_update_id then acc.maxId
      else data.last_update_id) = acc.maxId := by
    split_ifs with hcond
    · rfl
    · omega
  refine ⟨?_, ?_, ?_, ?_⟩
  · rw [hev2]
    exact persist_last_ok acc.events _ hev
  · exact ⟨acc.events, by rw [hev2, hcur], hev⟩
  · rw [hcur, hcv, hmax]
  · rw [hcur, hcv]
    exact hge

/-- Witness for C1 (amended): one update from cursor 3. -/
theorem C1_cursor_persisted_after_batch_witness :
    0 ≤ (StockBot.Data.mk 3 []).last_update_id ∧
    (persistOnlyAfterApplies (StockBot.main_run
        [StockBot.Update.mk (some 7) (some (5, "/stats"))] 0
        (fun _ => FetchResult.failure) (StockBot.Data.mk 3 [])).events = true ∧
     (∃ pre, (StockBot.main_run [StockBot.Update.mk (some 7) (some (5, "/stats"))] 0
          (fun _ => FetchResult.failure) (StockBot.Data.mk 3 [])).events =
        pre ++ [StockBot.CursorEvent.persist
          (StockBot.main_run [StockBot.Update.mk (some 7) (some (5, "/stats"))] 0
            (fun _ => FetchResult.failure)
            (StockBot.Data.mk 3 [])).data.last_update_id] ∧
        ∀ e ∈ pre, isApply e = true) ∧
     (StockBot.main_run [StockBot.Update.mk (some 7) (some (5, "/stats"))] 0
        (fun _ => FetchResult.failure) (StockBot.Data.mk 3 [])).data.last_update_id =
      ([StockBot.Update.mk (some 7) (some (5, "/stats"))].filterMap
        StockBot.Update.update_id).foldl max (StockBot.Data.mk 3 []).last_update_id ∧
     (StockBot.Data.mk 3 []).last_update_id ≤
      (StockBot.main_run [StockBot.Update.mk (some 7) (some (5, "/stats"))] 0
        (fun _ => FetchResult.failure) (StockBot.Data.mk 3 [])).data.last_update_id) :=
  ⟨by decide,
   C1_cursor_persisted_after_batch [StockBot.Update.mk (some 7) (some (5, "/stats"))]
     0 (fun _ => FetchResult.failure) (StockBot.Data.mk 3 []) (by decide)⟩
